import Mathlib

/-!
A verification development for the `CombinedCycleGasTurbine` model of
`src/main.py`.

Modelling conventions (shallow embedding):

* Python floats are modelled as exact rationals (`ℚ`).
* The CoolProp `PropsSI` property interface is an external collaborator;
  it is modelled as an abstract bundle of property functions (`PropFns`),
  one field per (output, input-pair) combination the code uses.
* `np.log` is modelled as an abstract function argument `logFn : ℚ → ℚ`.
* `scipy.optimize.fsolve` is modelled as an abstract argument
  `solver : (residual function) → (initial guess) → (returned triple)`;
  scipy's `fsolve` returns the result of the last iteration whether or not
  it converged, so the returned triple is unconstrained.
* The `logging.warning` safety-limit messages emitted by `calc_states` are
  modelled as a list of `Violation` values collected in the resulting state,
  in the order the code tests them.
-/

/-- The CoolProp `PropsSI` interface, one field per (output, inputs) pattern
used by `main.py`.  `h_pt fluid p T` stands for
`PropsSI("H", "P", p, "T", T, fluid)`; keyword-style inputs make the input
order irrelevant, so calls written `PropsSI("H", "T", T, "P", p, fluid)` in
the source are also modelled by `h_pt`.  `t_pq`/`h_pq` take a pressure and a
vapor quality. -/
structure PropFns where
  h_pt : String → ℚ → ℚ → ℚ
  s_pt : String → ℚ → ℚ → ℚ
  q_pt : String → ℚ → ℚ → ℚ
  h_ps : String → ℚ → ℚ → ℚ
  t_ps : String → ℚ → ℚ → ℚ
  s_ph : String → ℚ → ℚ → ℚ
  t_ph : String → ℚ → ℚ → ℚ
  q_ph : String → ℚ → ℚ → ℚ
  t_pq : String → ℚ → ℚ → ℚ
  h_pq : String → ℚ → ℚ → ℚ

/-- The configuration attributes consumed by the solver methods, i.e. the
attributes `attrs_from_kwargs_or_default` installs on the instance
(typed view; the string-keyed attribute mechanism itself is modelled
separately below by `attrs_from_kwargs_or_default`). -/
structure Config where
  p_5 : ℚ
  T_5 : ℚ
  p_1 : ℚ
  T_1 : ℚ
  gas_fluid : String
  m_dot_gas : ℚ
  steam_fluid : String
  m_dot_steam : ℚ
  Q_67 : ℚ
  r_p_comp : ℚ
  r_p_turb : ℚ
  r_p_pump : ℚ
  n_c_gas : ℚ
  n_t_gas : ℚ
  n_c_steam : ℚ
  n_t_steam : ℚ
  hrsg_f : ℚ
  hrsg_ua : ℚ
  max_t7 : ℚ
  max_t3 : ℚ
  min_x4 : ℚ
  max_p_hrsg_steam : ℚ
  min_p_cond : ℚ

/-- The five safety-limit warnings `calc_states` can emit, in source order. -/
inductive Violation where
  | gasTurbineOverTemp
  | steamTurbineOverTemp
  | erosionRisk
  | supercriticalRisk
  | freezingRisk
  deriving DecidableEq, Repr

/-- All scalar attributes `calc_states` stores on the instance, plus the
collected safety-limit warnings. -/
structure State where
  p_6 : ℚ
  h_5 : ℚ
  s_5 : ℚ
  ex_5 : ℚ
  h_6s : ℚ
  T_6s : ℚ
  h_6 : ℚ
  s_6 : ℚ
  T_6 : ℚ
  ex_6 : ℚ
  p_7 : ℚ
  h_7 : ℚ
  T_7 : ℚ
  s_7 : ℚ
  ex_7 : ℚ
  p_8 : ℚ
  h_8s : ℚ
  T_8s : ℚ
  h_8 : ℚ
  s_8 : ℚ
  T_8 : ℚ
  ex_8 : ℚ
  h_1 : ℚ
  s_1 : ℚ
  x_1 : ℚ
  ex_1 : ℚ
  p_2 : ℚ
  h_2s : ℚ
  T_2s : ℚ
  h_2 : ℚ
  s_2 : ℚ
  T_2 : ℚ
  x_2 : ℚ
  ex_2 : ℚ
  Q_23 : ℚ
  T_3 : ℚ
  T_9 : ℚ
  h_3 : ℚ
  h_9 : ℚ
  p_3 : ℚ
  s_3 : ℚ
  x_3 : ℚ
  ex_3 : ℚ
  Q_89 : ℚ
  s_9 : ℚ
  ex_9 : ℚ
  dT_hot_hrsg : ℚ
  dT_cold_hrsg : ℚ
  lmtd_hrsg : ℚ
  p_4 : ℚ
  h_4s : ℚ
  T_4s : ℚ
  h_4 : ℚ
  s_4 : ℚ
  T_4 : ℚ
  x_4 : ℚ
  ex_4 : ℚ
  Q_14 : ℚ
  violations : List Violation

/-- Body of `specific_exergy_at_point` after the `getattr` lookups: the code
selects the fluid from the point's number range and reads the stored `h_n`,
`s_n`; here the fluid and the stored pair are passed explicitly.
`ex = (h - T_0*s) - (h_0 - T_0*s_0)` with the dead state `(p_0, T_0)`. -/
def specific_exergy_at_point (prov : PropFns) (fluid : String)
    (h s p_0 T_0 : ℚ) : ℚ :=
  let h_0 := prov.h_pt fluid p_0 T_0
  let s_0 := prov.s_pt fluid p_0 T_0
  let b := h - T_0 * s
  let b_0 := h_0 - T_0 * s_0
  b - b_0

/-- `specific_exergy_at_state(p, T, fluid, p_0, T_0)` exactly as coded: note
the availability function is computed as `b = h - T * s` with the state's own
temperature `T`, while the dead-state term uses `T_0`. -/
def specific_exergy_at_state (prov : PropFns) (p T : ℚ) (fluid : String)
    (p_0 T_0 : ℚ) : ℚ :=
  let h := prov.h_pt fluid p T
  let s := prov.s_pt fluid p T
  let h_0 := prov.h_pt fluid p_0 T_0
  let s_0 := prov.s_pt fluid p_0 T_0
  let b := h - T * s
  let b_0 := h_0 - T_0 * s_0
  b - b_0

/-- Modelled from the spec: the specific-exergy formula the specification
states for an arbitrary `(p, T, fluid)` state,
`ex = (h - T_0*s) - (h_0 - T_0*s_0)`, to be compared with the code's
`specific_exergy_at_state`. -/
def spec_exergy_formula (prov : PropFns) (p T : ℚ) (fluid : String)
    (p_0 T_0 : ℚ) : ℚ :=
  (prov.h_pt fluid p T - T_0 * prov.s_pt fluid p T) -
    (prov.h_pt fluid p_0 T_0 - T_0 * prov.s_pt fluid p_0 T_0)

/-- The residual vector of the HRSG coupling system, exactly the local
`hrsg_equations` of `calc_states`; `v = (Q_23, T_3, T_9)`. -/
def hrsg_equations (cfg : Config) (prov : PropFns) (logFn : ℚ → ℚ)
    (T_8 T_2 h_8 h_2 p_8 p_2 : ℚ) (v : ℚ × ℚ × ℚ) : ℚ × ℚ × ℚ :=
  (v.1 - cfg.hrsg_f * cfg.hrsg_ua * ((T_8 - v.2.1) - (v.2.2 - T_2)) /
      logFn ((T_8 - v.2.1) / (v.2.2 - T_2)),
   prov.h_pt cfg.gas_fluid p_8 v.2.2 - h_8 + v.1 / cfg.m_dot_gas,
   prov.h_pt cfg.steam_fluid p_2 v.2.1 - h_2 - v.1 / cfg.m_dot_steam)

/-- The safety-limit comparison pass at the end of `calc_states`: each
`logging.warning` is modelled as one `Violation`, collected in source
order. -/
def check_limits (cfg : Config) (T_7 T_3 x_4 p_3 p_4 : ℚ) : List Violation :=
  (if cfg.max_t7 < T_7 then [Violation.gasTurbineOverTemp] else []) ++
  (if cfg.max_t3 < T_3 then [Violation.steamTurbineOverTemp] else []) ++
  (if x_4 < cfg.min_x4 then [Violation.erosionRisk] else []) ++
  (if cfg.max_p_hrsg_steam < p_3 then [Violation.supercriticalRisk] else []) ++
  (if p_4 < cfg.min_p_cond then [Violation.freezingRisk] else [])

/-- `calc_states`, line for line.  `solver` stands for
`fsolve(hrsg_equations, initial_guess, xtol=1e-6)`: it receives the residual
function and the initial guess and yields the triple scipy returns (the last
iterate, converged or not); `calc_states` stores that triple without any
residual check.  The five `logging.warning` limit checks at the end are
collected into `violations`. -/
def calc_states (cfg : Config) (prov : PropFns) (logFn : ℚ → ℚ)
    (solver : ((ℚ × ℚ × ℚ) → (ℚ × ℚ × ℚ)) → (ℚ × ℚ × ℚ) → (ℚ × ℚ × ℚ)) :
    State :=
  -- gas compressor outlet
  let p_6 := cfg.p_5 * cfg.r_p_comp
  let h_5 := prov.h_pt cfg.gas_fluid cfg.p_5 cfg.T_5
  let s_5 := prov.s_pt cfg.gas_fluid cfg.p_5 cfg.T_5
  let ex_5 := specific_exergy_at_point prov cfg.gas_fluid h_5 s_5 101325 298.15
  let h_6s := prov.h_ps cfg.gas_fluid p_6 s_5
  let T_6s := prov.t_ps cfg.gas_fluid p_6 s_5
  let h_6 := h_5 + (h_6s - h_5) / cfg.n_c_gas
  let s_6 := prov.s_ph cfg.gas_fluid p_6 h_6
  let T_6 := prov.t_ph cfg.gas_fluid p_6 h_6
  let ex_6 := specific_exergy_at_point prov cfg.gas_fluid h_6 s_6 101325 298.15
  -- combustion chamber outlet (isobaric)
  let p_7 := p_6
  let h_7 := h_6 + cfg.Q_67 / cfg.m_dot_gas
  let T_7 := prov.t_ph cfg.gas_fluid p_7 h_7
  let s_7 := prov.s_ph cfg.gas_fluid p_7 h_7
  let ex_7 := specific_exergy_at_point prov cfg.gas_fluid h_7 s_7 101325 298.15
  -- gas turbine outlet
  let p_8 := p_7 / cfg.r_p_turb
  let h_8s := prov.h_ps cfg.gas_fluid p_8 s_7
  let T_8s := prov.t_ps cfg.gas_fluid p_8 s_7
  let h_8 := h_7 - (h_7 - h_8s) * cfg.n_t_gas
  let s_8 := prov.s_ph cfg.gas_fluid p_8 h_8
  let T_8 := prov.t_ph cfg.gas_fluid p_8 h_8
  let ex_8 := specific_exergy_at_point prov cfg.gas_fluid h_8 s_8 101325 298.15
  -- steam pump outlet
  let h_1 := prov.h_pt cfg.steam_fluid cfg.p_1 cfg.T_1
  let s_1 := prov.s_pt cfg.steam_fluid cfg.p_1 cfg.T_1
  let x_1 := prov.q_pt cfg.steam_fluid cfg.p_1 cfg.T_1
  let ex_1 := specific_exergy_at_point prov cfg.steam_fluid h_1 s_1 101325 298.15
  let p_2 := cfg.p_1 * cfg.r_p_pump
  let h_2s := prov.h_ps cfg.steam_fluid p_2 s_1
  let T_2s := prov.t_ps cfg.steam_fluid p_2 s_1
  let h_2 := h_1 + (h_2s - h_1) / cfg.n_c_steam
  let s_2 := prov.s_ph cfg.steam_fluid p_2 h_2
  let T_2 := prov.t_ph cfg.steam_fluid p_2 h_2
  let x_2 := prov.q_ph cfg.steam_fluid p_2 h_2
  let ex_2 := specific_exergy_at_point prov cfg.steam_fluid h_2 s_2 101325 298.15
  -- HRSG: three-unknown nonlinear system handed to the root finder
  let initial_guess := (cfg.m_dot_gas * (h_8 - h_5) * 3 / 4,
                        T_2 * 5 / 2, cfg.T_5 * 3 / 4 + T_8 * 1 / 4)
  let sol := solver (hrsg_equations cfg prov logFn T_8 T_2 h_8 h_2 p_8 p_2)
               initial_guess
  let Q_23 := sol.1
  let T_3 := sol.2.1
  let T_9 := sol.2.2
  let h_3 := h_2 + Q_23 / cfg.m_dot_steam
  let h_9 := h_8 - Q_23 / cfg.m_dot_gas
  let p_3 := p_2
  let s_3 := prov.s_pt cfg.steam_fluid p_3 T_3
  let x_3 := prov.q_pt cfg.steam_fluid p_3 T_3
  let ex_3 := specific_exergy_at_point prov cfg.steam_fluid h_3 s_3 101325 298.15
  let Q_89 := -1 * Q_23
  let s_9 := prov.s_ph cfg.gas_fluid p_8 h_9
  let ex_9 := specific_exergy_at_point prov cfg.gas_fluid h_9 s_9 101325 298.15
  -- HRSG LMTD
  let dT_hot_hrsg := T_8 - T_3
  let dT_cold_hrsg := T_9 - T_2
  let lmtd_hrsg := (dT_hot_hrsg - dT_cold_hrsg) /
    logFn (dT_hot_hrsg / dT_cold_hrsg)
  -- steam turbine outlet
  let p_4 := cfg.p_1
  let h_4s := prov.h_ps cfg.steam_fluid p_4 s_3
  let T_4s := prov.t_ps cfg.steam_fluid p_4 s_3
  let h_4 := h_3 - (h_3 - h_4s) * cfg.n_t_steam
  let s_4 := prov.s_ph cfg.steam_fluid p_4 h_4
  let T_4 := prov.t_ph cfg.steam_fluid p_4 h_4
  let x_4 := prov.q_ph cfg.steam_fluid p_4 h_4
  let ex_4 := specific_exergy_at_point prov cfg.steam_fluid h_4 s_4 101325 298.15
  -- condenser heat transfer
  let Q_14 := cfg.m_dot_steam * (h_4 - h_1)
  { p_6 := p_6, h_5 := h_5, s_5 := s_5, ex_5 := ex_5, h_6s := h_6s,
    T_6s := T_6s, h_6 := h_6, s_6 := s_6, T_6 := T_6, ex_6 := ex_6,
    p_7 := p_7, h_7 := h_7, T_7 := T_7, s_7 := s_7, ex_7 := ex_7,
    p_8 := p_8, h_8s := h_8s, T_8s := T_8s, h_8 := h_8, s_8 := s_8,
    T_8 := T_8, ex_8 := ex_8, h_1 := h_1, s_1 := s_1, x_1 := x_1,
    ex_1 := ex_1, p_2 := p_2, h_2s := h_2s, T_2s := T_2s, h_2 := h_2,
    s_2 := s_2, T_2 := T_2, x_2 := x_2, ex_2 := ex_2, Q_23 := Q_23,
    T_3 := T_3, T_9 := T_9, h_3 := h_3, h_9 := h_9, p_3 := p_3,
    s_3 := s_3, x_3 := x_3, ex_3 := ex_3, Q_89 := Q_89, s_9 := s_9,
    ex_9 := ex_9, dT_hot_hrsg := dT_hot_hrsg, dT_cold_hrsg := dT_cold_hrsg,
    lmtd_hrsg := lmtd_hrsg, p_4 := p_4, h_4s := h_4s, T_4s := T_4s,
    h_4 := h_4, s_4 := s_4, T_4 := T_4, x_4 := x_4, ex_4 := ex_4,
    Q_14 := Q_14,
    violations := check_limits cfg T_7 T_3 x_4 p_3 p_4 }

/-- The quantities `calc_energy_exergy_balances` computes (the pie-chart
plotting is external I/O and not part of the state). -/
structure Balances where
  W_56 : ℚ
  W_78 : ℚ
  W_12 : ℚ
  W_34 : ℚ
  W_gas : ℚ
  W_steam : ℚ
  W_total : ℚ
  Ex_67 : ℚ
  Ex_14 : ℚ
  Ex_23 : ℚ
  W_56_loss : ℚ
  W_78_loss : ℚ
  hrsg_loss : ℚ
  gas_exhaust_loss : ℚ
  W_12_loss : ℚ
  W_34_loss : ℚ
  eta_gas_th : ℚ
  eta_steam_th : ℚ
  eta_th : ℚ
  eta_gas_th_max : ℚ
  eta_steam_th_max : ℚ
  eta_th_max : ℚ
  eta_gas_ex : ℚ
  eta_steam_ex : ℚ
  eta_ex : ℚ

/-- `calc_energy_exergy_balances`, computation part, line for line.  The
loss terms use the literal `298` exactly as in the source. -/
def calc_energy_exergy_balances (cfg : Config) (prov : PropFns) (st : State) :
    Balances :=
  let W_56 := cfg.m_dot_gas * (st.h_6 - st.h_5)
  let W_78 := cfg.m_dot_gas * (st.h_7 - st.h_8)
  let W_12 := cfg.m_dot_steam * (st.h_2 - st.h_1)
  let W_34 := cfg.m_dot_steam * (st.h_3 - st.h_4)
  let W_gas := W_78 - W_56
  let W_steam := W_34 - W_12
  let W_total := W_gas + W_steam
  let Ex_67 := cfg.m_dot_gas * (st.ex_7 - st.ex_6)
  let Ex_14 := cfg.m_dot_steam * (st.ex_4 - st.ex_1)
  let Ex_23 := cfg.m_dot_steam * (st.ex_3 - st.ex_2)
  let W_56_loss := cfg.m_dot_gas * 298 * (st.s_6 - st.s_5)
  let W_78_loss := cfg.m_dot_gas * 298 * (st.s_8 - st.s_7)
  let hrsg_loss := 298 * (cfg.m_dot_steam * (st.s_3 - st.s_2) +
    cfg.m_dot_gas * (st.s_9 - st.s_8))
  let gas_exhaust_loss := cfg.m_dot_gas * (st.ex_9 -
    specific_exergy_at_state prov 101325 st.T_9 cfg.gas_fluid 101325 298.15)
  let W_12_loss := cfg.m_dot_steam * 298 * (st.s_2 - st.s_1)
  let W_34_loss := cfg.m_dot_steam * 298 * (st.s_4 - st.s_3)
  { W_56 := W_56, W_78 := W_78, W_12 := W_12, W_34 := W_34,
    W_gas := W_gas, W_steam := W_steam, W_total := W_total,
    Ex_67 := Ex_67, Ex_14 := Ex_14, Ex_23 := Ex_23,
    W_56_loss := W_56_loss, W_78_loss := W_78_loss, hrsg_loss := hrsg_loss,
    gas_exhaust_loss := gas_exhaust_loss, W_12_loss := W_12_loss,
    W_34_loss := W_34_loss,
    eta_gas_th := W_gas / cfg.Q_67,
    eta_steam_th := W_steam / st.Q_23,
    eta_th := W_total / cfg.Q_67,
    eta_gas_th_max := Ex_67 / cfg.Q_67,
    eta_steam_th_max := Ex_23 / st.Q_23,
    eta_th_max := Ex_67 / cfg.Q_67,
    eta_gas_ex := W_gas / Ex_67,
    eta_steam_ex := W_steam / Ex_23,
    eta_ex := W_total / Ex_67 }

/-- `np.interp(x, [x0, x1], [y0, y1])`: linear interpolation with clamping
outside the breakpoint range, as numpy does. -/
def np_interp2 (x x0 x1 y0 y1 : ℚ) : ℚ :=
  if x ≤ x0 then y0
  else if x1 ≤ x then y1
  else y0 + (x - x0) * (y1 - y0) / (x1 - x0)

/-- The computation part of `calc_hrsg_pinch_point` (the T-X diagram drawing
is external I/O): returns `(T_pinch, h_sat_wet, h_sat_dry)`. -/
def calc_hrsg_pinch_point (cfg : Config) (prov : PropFns) (st : State) :
    ℚ × ℚ × ℚ :=
  let x_steam := fun h_steam => (h_steam - st.h_2) / (st.h_3 - st.h_2)
  let T_sat := prov.t_pq cfg.steam_fluid st.p_2 0
  let h_sat_wet := prov.h_pq cfg.steam_fluid st.p_2 0
  let h_sat_dry := prov.h_pq cfg.steam_fluid st.p_2 1
  let x_wet := x_steam h_sat_wet
  let dT_wet := np_interp2 x_wet 0 1 st.T_9 st.T_8 - T_sat
  let T_pinch := if st.dT_hot_hrsg < dT_wet then st.dT_hot_hrsg else dT_wet
  (T_pinch, h_sat_wet, h_sat_dry)

/-- A Python attribute value: the defaults are floats or fluid-name
strings. -/
inductive Val where
  | num : ℚ → Val
  | str : String → Val
  deriving DecidableEq, Repr

/-- The class-level default table, in class-body (= `__dict__` iteration)
order.  The keys are shown after the code's `removeprefix("_DEF_")` step;
arithmetic defaults (`273.15 + 20`, `0.04 * 101325`, `200 * 101325`,
`0.0061 * 101325`, `1600 + 273`, `620 + 273`) are written out as the exact
values the Python expressions denote. -/
def default_attrs : List (String × Val) :=
  [("P_5", Val.num 101325),
   ("T_5", Val.num 293.15),
   ("P_1", Val.num 4053),
   ("T_1", Val.num 297.9),
   ("GAS_FLUID", Val.str "air"),
   ("M_DOT_GAS", Val.num 1055.9),
   ("STEAM_FLUID", Val.str "water"),
   ("M_DOT_STEAM", Val.num 150.3),
   ("Q_67", Val.num 1045300000),
   ("R_P_COMP", Val.num 23),
   ("R_P_TURB", Val.num 20.9186),
   ("R_P_PUMP", Val.num 1000),
   ("N_C_GAS", Val.num 0.85),
   ("N_T_GAS", Val.num 0.85),
   ("N_C_STEAM", Val.num 0.85),
   ("N_T_STEAM", Val.num 0.85),
   ("HRSG_F", Val.num 1.0),
   ("HRSG_UA", Val.num 5000000),
   ("MAX_T7", Val.num 1873),
   ("MAX_T3", Val.num 893),
   ("MIN_X4", Val.num 0.90),
   ("MAX_P_HRSG_STEAM", Val.num 20265000),
   ("MIN_P_COND", Val.num 618.0825)]

/-- `re.match(r"(T|Q)_\d+", key)` as a Boolean: the key starts with `T` or
`Q`, then an underscore, then at least one digit. -/
def starts_TQ_digit (k : String) : Bool :=
  match k.data with
  | c1 :: c2 :: c3 :: _ => (c1 = 'T' || c1 = 'Q') && c2 = '_' && c3.isDigit
  | _ => false

/-- ASCII lowercasing of a key, Python's `str.lower()` on these keys. -/
def lower_key (s : String) : String := ⟨s.data.map Char.toLower⟩

/-- The attribute-name normalisation of `attrs_from_kwargs_or_default`:
`T_n` / `Q_mn` keys keep their case, everything else is lowercased. -/
def norm_key (k : String) : String :=
  if starts_TQ_digit k then k else lower_key k

/-- `attrs_from_kwargs_or_default`: for every class default, install the
kwarg value under the normalised key when the kwarg dictionary has that key,
and the default value otherwise.  Kwarg keys that are not normalised default
names are never consulted. -/
def attrs_from_kwargs_or_default (kwargs : String → Option Val) :
    List (String × Val) :=
  default_attrs.map fun kv =>
    (norm_key kv.1, (kwargs (norm_key kv.1)).getD kv.2)

/-- Attribute lookup in the installed-attribute list (the normalised keys
are pairwise distinct, so first match is the attribute's value). -/
def lookup_attr (k : String) : List (String × Val) → Option Val
  | [] => none
  | kv :: rest => if kv.1 = k then some kv.2 else lookup_attr k rest

/-- Replace only the five safety-limit thresholds of a configuration. -/
def set_limits (cfg : Config) (a b c d e : ℚ) : Config :=
  { cfg with max_t7 := a, max_t3 := b, min_x4 := c,
             max_p_hrsg_steam := d, min_p_cond := e }

/-- Forget the collected warnings, keeping every computed quantity. -/
def drop_violations (st : State) : State := { st with violations := [] }

/-- A simple linear property bundle for concrete instantiations: enthalpy
`1000·T`, entropy `T`, with matching inversions; saturated-liquid data at
450 K and 450000 J/kg; qualities 1 from `(p, T)` lookups and 1/2 from
`(p, h)` lookups. -/
def provW : PropFns :=
  { h_pt := fun _ _ T => 1000 * T,
    s_pt := fun _ _ T => T,
    q_pt := fun _ _ _ => 1,
    h_ps := fun _ _ s => 1000 * s,
    t_ps := fun _ _ s => s,
    s_ph := fun _ _ h => h / 1000,
    t_ph := fun _ _ h => h / 1000,
    q_ph := fun _ _ _ => 1 / 2,
    t_pq := fun _ _ _ => 450,
    h_pq := fun _ _ _ => 450000 }

/-- A concrete configuration for instantiations.  `hrsg_ua` is chosen so
that the triple `(4920000, 510, 400)` is an exact root of the HRSG system
under `provW` and `logW`. -/
def cfgW : Config :=
  { p_5 := 101325, T_5 := 300, p_1 := 4053, T_1 := 390,
    gas_fluid := "air", m_dot_gas := 12,
    steam_fluid := "water", m_dot_steam := 41,
    Q_67 := 6120000, r_p_comp := 23, r_p_turb := 23, r_p_pump := 1000,
    n_c_gas := 1, n_t_gas := 1, n_c_steam := 1, n_t_steam := 1,
    hrsg_f := 1, hrsg_ua := 4920000 * (17 / 5) / 290,
    max_t7 := 1873, max_t3 := 893, min_x4 := 9 / 10,
    max_p_hrsg_steam := 20265000, min_p_cond := 618.0825 }

/-- A concrete stand-in for `np.log` in instantiations (its value only
matters at the single ratio 30, where `ln 30 ≈ 3.4 = 17/5`; the claims'
theorems are quantified over the log function). -/
def logW : ℚ → ℚ := fun _ => 17 / 5

/-- A root-finder outcome that is an exact root of the HRSG system for
`cfgW`/`provW`/`logW`. -/
def solverRoot : ((ℚ × ℚ × ℚ) → (ℚ × ℚ × ℚ)) → (ℚ × ℚ × ℚ) → (ℚ × ℚ × ℚ) :=
  fun _ _ => (4920000, 510, 400)

/-- A root-finder outcome far from any root: models `fsolve` returning its
last iterate after failing to converge. -/
def solverBad : ((ℚ × ℚ × ℚ) → (ℚ × ℚ × ℚ)) → (ℚ × ℚ × ℚ) → (ℚ × ℚ × ℚ) :=
  fun _ _ => (0, 500, 800)

/-- A root-finder outcome whose steam outlet temperature exceeds the gas
inlet temperature, giving a negative hot-side approach. -/
def solverInf : ((ℚ × ℚ × ℚ) → (ℚ × ℚ × ℚ)) → (ℚ × ℚ × ℚ) → (ℚ × ℚ × ℚ) :=
  fun _ _ => (0, 900, 400)

/-- A property bundle with pressure-dependent isentropic enthalpy and a
pressure-dependent entropy inversion, giving strictly positive ideal
enthalpy rises/drops and non-negative entropy generation at every
component. -/
def prov3 : PropFns :=
  { h_pt := fun _ _ T => 1000 * T,
    s_pt := fun _ _ T => T,
    q_pt := fun _ _ _ => 1,
    h_ps := fun _ p s => if p < 100000 then 900 * s else 1100 * s,
    t_ps := fun _ _ s => s,
    s_ph := fun _ p h => if p < 100000 then h / 500 else h / 1000,
    t_ph := fun _ _ h => h / 1000,
    q_ph := fun _ _ _ => 1 / 2,
    t_pq := fun _ _ _ => 450,
    h_pq := fun _ _ _ => 450000 }

/-- Configuration with efficiencies 1/2 for exercising the isentropic
convention at every rotating component. -/
def cfg3 : Config :=
  { p_5 := 101325, T_5 := 300, p_1 := 4053, T_1 := 390,
    gas_fluid := "air", m_dot_gas := 12,
    steam_fluid := "water", m_dot_steam := 41,
    Q_67 := 6120000, r_p_comp := 23, r_p_turb := 46, r_p_pump := 1000,
    n_c_gas := 1 / 2, n_t_gas := 1 / 2, n_c_steam := 1 / 2,
    n_t_steam := 1 / 2,
    hrsg_f := 1, hrsg_ua := 1,
    max_t7 := 1873, max_t3 := 893, min_x4 := 9 / 10,
    max_p_hrsg_steam := 20265000, min_p_cond := 618.0825 }

/-- A trivial root-finder outcome used with `cfg3`/`prov3`. -/
def solver3 : ((ℚ × ℚ × ℚ) → (ℚ × ℚ × ℚ)) → (ℚ × ℚ × ℚ) → (ℚ × ℚ × ℚ) :=
  fun _ _ => (0, 500, 400)

/-- Like `prov3` but with the plain entropy inversion. -/
def prov7 : PropFns :=
  { h_pt := fun _ _ T => 1000 * T,
    s_pt := fun _ _ T => T,
    q_pt := fun _ _ _ => 1,
    h_ps := fun _ p s => if p < 100000 then 900 * s else 1100 * s,
    t_ps := fun _ _ s => s,
    s_ph := fun _ _ h => h / 1000,
    t_ph := fun _ _ h => h / 1000,
    q_ph := fun _ _ _ => 1 / 2,
    t_pq := fun _ _ _ => 450,
    h_pq := fun _ _ _ => 450000 }

/-- Configuration with unit efficiencies for exercising the efficiency
ordering with strictly positive net powers. -/
def cfg7 : Config :=
  { p_5 := 101325, T_5 := 300, p_1 := 4053, T_1 := 390,
    gas_fluid := "air", m_dot_gas := 12,
    steam_fluid := "water", m_dot_steam := 41,
    Q_67 := 6120000, r_p_comp := 23, r_p_turb := 46, r_p_pump := 1000,
    n_c_gas := 1, n_t_gas := 1, n_c_steam := 1, n_t_steam := 1,
    hrsg_f := 1, hrsg_ua := 1,
    max_t7 := 1873, max_t3 := 893, min_x4 := 9 / 10,
    max_p_hrsg_steam := 20265000, min_p_cond := 618.0825 }

/-- A root-finder outcome used with `cfg7`/`prov7`. -/
def solver7 : ((ℚ × ℚ × ℚ) → (ℚ × ℚ × ℚ)) → (ℚ × ℚ × ℚ) → (ℚ × ℚ × ℚ) :=
  fun _ _ => (4100000, 529, 400)

/-- The empty kwargs dictionary. -/
def kw_none : String → Option Val := fun _ => none

/-- Claim C2, code-bug evidence: when the root finder does not deliver a
valid root — here it returns `(0, 900, 400)`, whose hot-side approach
`T_8 - T_3 = 810 - 900 = -90` is non-positive — `calc_states` still
completes the solve normally: it stores the triple, propagates the
downstream states (`h_4`, `Q_14`, the limit checks) and reports no
infeasible-configuration error; no such error path exists in the code. -/
theorem hrsg_infeasible_silent :
    (calc_states cfgW provW logW solverInf).dT_hot_hrsg = -90 ∧
    (calc_states cfgW provW logW solverInf).h_4 = 900000 ∧
    (calc_states cfgW provW logW solverInf).Q_14 = 20910000 ∧
    (calc_states cfgW provW logW solverInf).violations =
      [Violation.steamTurbineOverTemp, Violation.erosionRisk] := by
  refine ⟨?_, ?_, ?_, ?_⟩ <;>
    norm_num [calc_states, cfgW, provW, logW, solverInf,
      specific_exergy_at_point, hrsg_equations, check_limits]

/-- Helper: the installed attribute list, with the key normalisation fully
evaluated: every value is the kwarg value under the normalised key when
present, else the class default. -/
theorem attrs_general_eval (kwargs : String → Option Val) :
    attrs_from_kwargs_or_default kwargs =
      [("p_5", (kwargs ("p_5")).getD (Val.num 101325)),
       ("T_5", (kwargs ("T_5")).getD (Val.num 293.15)),
       ("p_1", (kwargs ("p_1")).getD (Val.num 4053)),
       ("T_1", (kwargs ("T_1")).getD (Val.num 297.9)),
       ("gas_fluid", (kwargs ("gas_fluid")).getD (Val.str "air")),
       ("m_dot_gas", (kwargs ("m_dot_gas")).getD (Val.num 1055.9)),
       ("steam_fluid", (kwargs ("steam_fluid")).getD (Val.str "water")),
       ("m_dot_steam", (kwargs ("m_dot_steam")).getD (Val.num 150.3)),
       ("Q_67", (kwargs ("Q_67")).getD (Val.num 1045300000)),
       ("r_p_comp", (kwargs ("r_p_comp")).getD (Val.num 23)),
       ("r_p_turb", (kwargs ("r_p_turb")).getD (Val.num 20.9186)),
       ("r_p_pump", (kwargs ("r_p_pump")).getD (Val.num 1000)),
       ("n_c_gas", (kwargs ("n_c_gas")).getD (Val.num 0.85)),
       ("n_t_gas", (kwargs ("n_t_gas")).getD (Val.num 0.85)),
       ("n_c_steam", (kwargs ("n_c_steam")).getD (Val.num 0.85)),
       ("n_t_steam", (kwargs ("n_t_steam")).getD (Val.num 0.85)),
       ("hrsg_f", (kwargs ("hrsg_f")).getD (Val.num 1.0)),
       ("hrsg_ua", (kwargs ("hrsg_ua")).getD (Val.num 5000000)),
       ("max_t7", (kwargs ("max_t7")).getD (Val.num 1873)),
       ("max_t3", (kwargs ("max_t3")).getD (Val.num 893)),
       ("min_x4", (kwargs ("min_x4")).getD (Val.num 0.90)),
       ("max_p_hrsg_steam",
         (kwargs ("max_p_hrsg_steam")).getD (Val.num 20265000)),
       ("min_p_cond", (kwargs ("min_p_cond")).getD (Val.num 618.0825))] := by
  have k01 : norm_key ("P_5") = "p_5" := by decide
  have k02 : norm_key ("T_5") = "T_5" := by decide
  have k03 : norm_key ("P_1") = "p_1" := by decide
  have k04 : norm_key ("T_1") = "T_1" := by decide
  have k05 : norm_key ("GAS_FLUID") = "gas_fluid" := by decide
  have k06 : norm_key ("M_DOT_GAS") = "m_dot_gas" := by decide
  have k07 : norm_key ("STEAM_FLUID") = "steam_fluid" := by decide
  have k08 : norm_key ("M_DOT_STEAM") = "m_dot_steam" := by decide
  have k09 : norm_key ("Q_67") = "Q_67" := by decide
  have k10 : norm_key ("R_P_COMP") = "r_p_comp" := by decide
  have k11 : norm_key ("R_P_TURB") = "r_p_turb" := by decide
  have k12 : norm_key ("R_P_PUMP") = "r_p_pump" := by decide
  have k13 : norm_key ("N_C_GAS") = "n_c_gas" := by decide
  have k14 : norm_key ("N_T_GAS") = "n_t_gas" := by decide
  have k15 : norm_key ("N_C_STEAM") = "n_c_steam" := by decide
  have k16 : norm_key ("N_T_STEAM") = "n_t_steam" := by decide
  have k17 : norm_key ("HRSG_F") = "hrsg_f" := by decide
  have k18 : norm_key ("HRSG_UA") = "hrsg_ua" := by decide
  have k19 : norm_key ("MAX_T7") = "max_t7" := by decide
  have k20 : norm_key ("MAX_T3") = "max_t3" := by decide
  have k21 : norm_key ("MIN_X4") = "min_x4" := by decide
  have k22 : norm_key ("MAX_P_HRSG_STEAM") = "max_p_hrsg_steam" := by decide
  have k23 : norm_key ("MIN_P_COND") = "min_p_cond" := by decide
  simp only [attrs_from_kwargs_or_default, default_attrs, List.map,
    k01, k02, k03, k04, k05, k06, k07, k08, k09, k10, k11, k12,
    k13, k14, k15, k16, k17, k18, k19, k20, k21, k22, k23]

/-- Claim C9 (amended to the code's actual defaults): with no keyword
arguments every configuration field gets its class-level default — in
particular gas inlet temperature `T_5 = 293.15` K (not 298.15 K),
compressor pressure ratio 23, isentropic efficiencies 0.85 for all four
rotating components, combustor heat input 1.0453e9 W, steam mass flow
150.3 kg/s — and any recognised keyword takes the supplied value while all
unspecified fields keep their defaults. -/
theorem default_attrs_values :
    (∀ kwargs, attrs_from_kwargs_or_default kwargs =
      [("p_5", (kwargs ("p_5")).getD (Val.num 101325)),
       ("T_5", (kwargs ("T_5")).getD (Val.num 293.15)),
       ("p_1", (kwargs ("p_1")).getD (Val.num 4053)),
       ("T_1", (kwargs ("T_1")).getD (Val.num 297.9)),
       ("gas_fluid", (kwargs ("gas_fluid")).getD (Val.str "air")),
       ("m_dot_gas", (kwargs ("m_dot_gas")).getD (Val.num 1055.9)),
       ("steam_fluid", (kwargs ("steam_fluid")).getD (Val.str "water")),
       ("m_dot_steam", (kwargs ("m_dot_steam")).getD (Val.num 150.3)),
       ("Q_67", (kwargs ("Q_67")).getD (Val.num 1045300000)),
       ("r_p_comp", (kwargs ("r_p_comp")).getD (Val.num 23)),
       ("r_p_turb", (kwargs ("r_p_turb")).getD (Val.num 20.9186)),
       ("r_p_pump", (kwargs ("r_p_pump")).getD (Val.num 1000)),
       ("n_c_gas", (kwargs ("n_c_gas")).getD (Val.num 0.85)),
       ("n_t_gas", (kwargs ("n_t_gas")).getD (Val.num 0.85)),
       ("n_c_steam", (kwargs ("n_c_steam")).getD (Val.num 0.85)),
       ("n_t_steam", (kwargs ("n_t_steam")).getD (Val.num 0.85)),
       ("hrsg_f", (kwargs ("hrsg_f")).getD (Val.num 1.0)),
       ("hrsg_ua", (kwargs ("hrsg_ua")).getD (Val.num 5000000)),
       ("max_t7", (kwargs ("max_t7")).getD (Val.num 1873)),
       ("max_t3", (kwargs ("max_t3")).getD (Val.num 893)),
       ("min_x4", (kwargs ("min_x4")).getD (Val.num 0.90)),
       ("max_p_hrsg_steam",
         (kwargs ("max_p_hrsg_steam")).getD (Val.num 20265000)),
       ("min_p_cond", (kwargs ("min_p_cond")).getD (Val.num 618.0825))]) ∧
    lookup_attr ("T_5") (attrs_from_kwargs_or_default kw_none) =
      some (Val.num 293.15) ∧
    lookup_attr ("r_p_comp") (attrs_from_kwargs_or_default kw_none) =
      some (Val.num 23) ∧
    lookup_attr ("n_c_gas") (attrs_from_kwargs_or_default kw_none) =
      some (Val.num 0.85) ∧
    lookup_attr ("Q_67") (attrs_from_kwargs_or_default kw_none) =
      some (Val.num 1045300000) ∧
    lookup_attr ("m_dot_steam") (attrs_from_kwargs_or_default kw_none) =
      some (Val.num 150.3) := by
  refine ⟨attrs_general_eval, ?_, ?_, ?_, ?_, ?_⟩ <;>
    · rw [attrs_general_eval kw_none]
      simp +decide [lookup_attr, kw_none]

/-- Claim C9, counterexample to the claim as stated: the default gas-inlet
temperature installed under the key `T_5` is 293.15 K (`273.15 + 20` in the
class body), not the claimed 298.15 K. -/
theorem default_T5_cex :
    lookup_attr ("T_5") (attrs_from_kwargs_or_default kw_none) =
      some (Val.num 293.15) ∧
    Val.num 293.15 ≠ Val.num 298.15 := by
  constructor
  · rw [attrs_general_eval kw_none]
    simp +decide [lookup_attr, kw_none]
  · simp only [ne_eq, Val.num.injEq]
    norm_num

/-- Claim C10: kwarg keys that are not normalised default names are never
consulted and are silently ignored; because default names are lowercased
unless they match `(T|Q)_digits` at the start, the safety limits are only
settable under `max_t7` / `max_t3`, and passing the documentation's
capitalisation `max_T7` / `max_T3` leaves the limits at their defaults
(1873 K and 893 K). -/
theorem unknown_kwargs_ignored :
    norm_key ("MAX_T7") = "max_t7" ∧
    norm_key ("MAX_T3") = "max_t3" ∧
    (∀ (kwargs : String → Option Val) (k : String) (v : Val),
      (∀ kv ∈ default_attrs, norm_key kv.1 ≠ k) →
      attrs_from_kwargs_or_default
          (fun x => if x = k then some v else kwargs x) =
        attrs_from_kwargs_or_default kwargs) ∧
    lookup_attr ("max_t7") (attrs_from_kwargs_or_default
        (fun x => if x = "max_T7" then some (Val.num 2000) else none)) =
      some (Val.num 1873) ∧
    lookup_attr ("max_t3") (attrs_from_kwargs_or_default
        (fun x => if x = "max_T3" then some (Val.num 2000) else none)) =
      some (Val.num 893) := by
  refine ⟨by decide, by decide, ?_, ?_, ?_⟩
  · intro kwargs k v h
    unfold attrs_from_kwargs_or_default
    apply List.map_congr_left
    intro kv hkv
    have hne := h kv hkv
    simp only [if_neg hne]
  · rw [attrs_general_eval]
    simp +decide only [lookup_attr, Option.getD]
  · rw [attrs_general_eval]
    simp +decide only [lookup_attr, Option.getD]

/-- Claim C10, witness: a kwarg under the unrecognised key `max_T7` is
ignored — the installed attributes are identical to those with no kwargs at
all. -/
theorem unknown_kwargs_ignored_check :
    attrs_from_kwargs_or_default
        (fun x => if x = "max_T7" then some (Val.num 0) else kw_none x) =
      attrs_from_kwargs_or_default kw_none :=
  unknown_kwargs_ignored.2.2.1 kw_none "max_T7" (Val.num 0) (by decide)

/-- Claim C3: at all four rotating components `calc_states` applies the one
fixed convention — work absorbers (gas compressor, steam pump) add the ideal
isentropic enthalpy rise divided by the isentropic efficiency, so with
`0 < eff ≤ 1` the actual work is at least the ideal work; work producers
(gas turbine, steam turbine) subtract the ideal drop multiplied by the
efficiency, so with `eff ≤ 1` the actual work is at most the ideal work. -/
theorem isentropic_convention_holds (cfg : Config) (prov : PropFns)
    (logFn : ℚ → ℚ)
    (solver : ((ℚ × ℚ × ℚ) → (ℚ × ℚ × ℚ)) → (ℚ × ℚ × ℚ) → (ℚ × ℚ × ℚ))
    (st : State) (hst : st = calc_states cfg prov logFn solver) :
    st.h_6 = st.h_5 + (st.h_6s - st.h_5) / cfg.n_c_gas ∧
    st.h_2 = st.h_1 + (st.h_2s - st.h_1) / cfg.n_c_steam ∧
    st.h_8 = st.h_7 - (st.h_7 - st.h_8s) * cfg.n_t_gas ∧
    st.h_4 = st.h_3 - (st.h_3 - st.h_4s) * cfg.n_t_steam ∧
    (0 < cfg.n_c_gas → cfg.n_c_gas ≤ 1 → st.h_5 ≤ st.h_6s →
      st.h_6s - st.h_5 ≤ st.h_6 - st.h_5) ∧
    (0 < cfg.n_c_steam → cfg.n_c_steam ≤ 1 → st.h_1 ≤ st.h_2s →
      st.h_2s - st.h_1 ≤ st.h_2 - st.h_1) ∧
    (cfg.n_t_gas ≤ 1 → st.h_8s ≤ st.h_7 →
      st.h_7 - st.h_8 ≤ st.h_7 - st.h_8s) ∧
    (cfg.n_t_steam ≤ 1 → st.h_4s ≤ st.h_3 →
      st.h_3 - st.h_4 ≤ st.h_3 - st.h_4s) := by
  subst hst
  refine ⟨rfl, rfl, rfl, rfl, ?_, ?_, ?_, ?_⟩
  · intro h0 h1 h2
    have e : (calc_states cfg prov logFn solver).h_6 =
        (calc_states cfg prov logFn solver).h_5 +
          ((calc_states cfg prov logFn solver).h_6s -
            (calc_states cfg prov logFn solver).h_5) / cfg.n_c_gas := rfl
    rw [e]
    have hd : (calc_states cfg prov logFn solver).h_6s -
        (calc_states cfg prov logFn solver).h_5 ≤
        ((calc_states cfg prov logFn solver).h_6s -
          (calc_states cfg prov logFn solver).h_5) / cfg.n_c_gas := by
      rw [le_div_iff₀ h0]
      exact mul_le_of_le_one_right (by linarith) h1
    linarith
  · intro h0 h1 h2
    have e : (calc_states cfg prov logFn solver).h_2 =
        (calc_states cfg prov logFn solver).h_1 +
          ((calc_states cfg prov logFn solver).h_2s -
            (calc_states cfg prov logFn solver).h_1) / cfg.n_c_steam := rfl
    rw [e]
    have hd : (calc_states cfg prov logFn solver).h_2s -
        (calc_states cfg prov logFn solver).h_1 ≤
        ((calc_states cfg prov logFn solver).h_2s -
          (calc_states cfg prov logFn solver).h_1) / cfg.n_c_steam := by
      rw [le_div_iff₀ h0]
      exact mul_le_of_le_one_right (by linarith) h1
    linarith
  · intro h1 h2
    have e : (calc_states cfg prov logFn solver).h_8 =
        (calc_states cfg prov logFn solver).h_7 -
          ((calc_states cfg prov logFn solver).h_7 -
            (calc_states cfg prov logFn solver).h_8s) * cfg.n_t_gas := rfl
    rw [e]
    have hd : ((calc_states cfg prov logFn solver).h_7 -
        (calc_states cfg prov logFn solver).h_8s) * cfg.n_t_gas ≤
        (calc_states cfg prov logFn solver).h_7 -
          (calc_states cfg prov logFn solver).h_8s :=
      mul_le_of_le_one_right (by linarith) h1
    linarith
  · intro h1 h2
    have e : (calc_states cfg prov logFn solver).h_4 =
        (calc_states cfg prov logFn solver).h_3 -
          ((calc_states cfg prov logFn solver).h_3 -
            (calc_states cfg prov logFn solver).h_4s) * cfg.n_t_steam := rfl
    rw [e]
    have hd : ((calc_states cfg prov logFn solver).h_3 -
        (calc_states cfg prov logFn solver).h_4s) * cfg.n_t_steam ≤
        (calc_states cfg prov logFn solver).h_3 -
          (calc_states cfg prov logFn solver).h_4s :=
      mul_le_of_le_one_right (by linarith) h1
    linarith

/-- Claim C3, witness: at `cfg3`/`prov3` (efficiencies 1/2, positive ideal
rises and drops at every component) the actual work is at least the ideal
work at both work absorbers and at most the ideal work at both work
producers. -/
theorem isentropic_convention_check :
    ((calc_states cfg3 prov3 logW solver3).h_6s -
        (calc_states cfg3 prov3 logW solver3).h_5 ≤
      (calc_states cfg3 prov3 logW solver3).h_6 -
        (calc_states cfg3 prov3 logW solver3).h_5) ∧
    ((calc_states cfg3 prov3 logW solver3).h_2s -
        (calc_states cfg3 prov3 logW solver3).h_1 ≤
      (calc_states cfg3 prov3 logW solver3).h_2 -
        (calc_states cfg3 prov3 logW solver3).h_1) ∧
    ((calc_states cfg3 prov3 logW solver3).h_7 -
        (calc_states cfg3 prov3 logW solver3).h_8 ≤
      (calc_states cfg3 prov3 logW solver3).h_7 -
        (calc_states cfg3 prov3 logW solver3).h_8s) ∧
    ((calc_states cfg3 prov3 logW solver3).h_3 -
        (calc_states cfg3 prov3 logW solver3).h_4 ≤
      (calc_states cfg3 prov3 logW solver3).h_3 -
        (calc_states cfg3 prov3 logW solver3).h_4s) := by
  have h := isentropic_convention_holds cfg3 prov3 logW solver3 _ rfl
  refine ⟨h.2.2.2.2.1 (by norm_num [cfg3]) (by norm_num [cfg3]) ?_,
          h.2.2.2.2.2.1 (by norm_num [cfg3]) (by norm_num [cfg3]) ?_,
          h.2.2.2.2.2.2.1 (by norm_num [cfg3]) ?_,
          h.2.2.2.2.2.2.2 (by norm_num [cfg3]) ?_⟩ <;>
    norm_num [calc_states, cfg3, prov3, logW, solver3,
      specific_exergy_at_point, hrsg_equations]

/-- Claim C4, code-bug evidence: `specific_exergy_at_point` computes exactly
the documented formula `(h - T_0*s) - (h_0 - T_0*s_0)`, and every stored
`ex_n` of a solved state is exactly that function of the stored `(h_n, s_n)`
against the fixed dead state (101325 Pa, 298.15 K) — the round trip is
exact; but `specific_exergy_at_state` computes `b = h - T*s` with the
state's own temperature instead of `T_0`, and at the concrete state
(101325 Pa, 400 K, fluid air, linear properties `provW`) it differs from
the specification formula. -/
theorem exergy_state_formula_bug (cfg : Config) (prov : PropFns)
    (logFn : ℚ → ℚ)
    (solver : ((ℚ × ℚ × ℚ) → (ℚ × ℚ × ℚ)) → (ℚ × ℚ × ℚ) → (ℚ × ℚ × ℚ))
    (st : State) (hst : st = calc_states cfg prov logFn solver) :
    specific_exergy_at_state provW 101325 400 ("air") 101325 298.15 =
      12297369 / 400 ∧
    spec_exergy_formula provW 101325 400 ("air") 101325 298.15 =
      28593369 / 400 ∧
    specific_exergy_at_state provW 101325 400 ("air") 101325 298.15 ≠
      spec_exergy_formula provW 101325 400 ("air") 101325 298.15 ∧
    (∀ (prov2 : PropFns) (fluid : String) (h s p_0 T_0 : ℚ),
      specific_exergy_at_point prov2 fluid h s p_0 T_0 =
        (h - T_0 * s) -
          (prov2.h_pt fluid p_0 T_0 - T_0 * prov2.s_pt fluid p_0 T_0)) ∧
    st.ex_1 = specific_exergy_at_point prov cfg.steam_fluid st.h_1 st.s_1
      101325 298.15 ∧
    st.ex_2 = specific_exergy_at_point prov cfg.steam_fluid st.h_2 st.s_2
      101325 298.15 ∧
    st.ex_3 = specific_exergy_at_point prov cfg.steam_fluid st.h_3 st.s_3
      101325 298.15 ∧
    st.ex_4 = specific_exergy_at_point prov cfg.steam_fluid st.h_4 st.s_4
      101325 298.15 ∧
    st.ex_5 = specific_exergy_at_point prov cfg.gas_fluid st.h_5 st.s_5
      101325 298.15 ∧
    st.ex_6 = specific_exergy_at_point prov cfg.gas_fluid st.h_6 st.s_6
      101325 298.15 ∧
    st.ex_7 = specific_exergy_at_point prov cfg.gas_fluid st.h_7 st.s_7
      101325 298.15 ∧
    st.ex_8 = specific_exergy_at_point prov cfg.gas_fluid st.h_8 st.s_8
      101325 298.15 ∧
    st.ex_9 = specific_exergy_at_point prov cfg.gas_fluid st.h_9 st.s_9
      101325 298.15 := by
  subst hst
  refine ⟨?_, ?_, ?_, fun prov2 fluid h s p_0 T_0 => rfl,
    rfl, rfl, rfl, rfl, rfl, rfl, rfl, rfl, rfl⟩
  · norm_num [specific_exergy_at_state, provW]
  · norm_num [spec_exergy_formula, provW]
  · norm_num [specific_exergy_at_state, spec_exergy_formula, provW]

/-- Claim C4, witness: the concrete divergence between the coded
`specific_exergy_at_state` and the specification's exergy formula. -/
theorem exergy_state_formula_check :
    specific_exergy_at_state provW 101325 400 ("air") 101325 298.15 ≠
      spec_exergy_formula provW 101325 400 ("air") 101325 298.15 :=
  (exergy_state_formula_bug cfgW provW logW solverRoot _ rfl).2.2.1

/-- Claim C1 (amended): `calc_states` hands the three-equation HRSG system
to the external root finder (with 1e-6 passed as `xtol`, a step tolerance on
the unknowns) and stores whatever triple the finder returns, performing no
residual check of its own.  The residual functions are exactly the claim's
three coupling equations (LMTD relation, gas-side and steam-side energy
balances), and whenever the finder does return an exact root, the stored
triple's residuals are within the 1e-6 tolerance and `h_3`, `h_9` are
consistent with the stored heat duty. -/
theorem hrsg_residuals_amended (cfg : Config) (prov : PropFns)
    (logFn : ℚ → ℚ)
    (solver : ((ℚ × ℚ × ℚ) → (ℚ × ℚ × ℚ)) → (ℚ × ℚ × ℚ) → (ℚ × ℚ × ℚ))
    (st : State) (hst : st = calc_states cfg prov logFn solver) :
    (st.Q_23, st.T_3, st.T_9) =
      solver (hrsg_equations cfg prov logFn st.T_8 st.T_2 st.h_8 st.h_2
          st.p_8 st.p_2)
        (cfg.m_dot_gas * (st.h_8 - st.h_5) * 3 / 4, st.T_2 * 5 / 2,
         cfg.T_5 * 3 / 4 + st.T_8 * 1 / 4) ∧
    (∀ (T_8 T_2 h_8 h_2 p_8 p_2 Q T3 T9 : ℚ),
      hrsg_equations cfg prov logFn T_8 T_2 h_8 h_2 p_8 p_2 (Q, T3, T9) =
        (Q - cfg.hrsg_f * cfg.hrsg_ua * ((T_8 - T3) - (T9 - T_2)) /
            logFn ((T_8 - T3) / (T9 - T_2)),
         prov.h_pt cfg.gas_fluid p_8 T9 - (h_8 - Q / cfg.m_dot_gas),
         prov.h_pt cfg.steam_fluid p_2 T3 - (h_2 + Q / cfg.m_dot_steam))) ∧
    (hrsg_equations cfg prov logFn st.T_8 st.T_2 st.h_8 st.h_2 st.p_8 st.p_2
        (st.Q_23, st.T_3, st.T_9) = (0, 0, 0) →
      (|(hrsg_equations cfg prov logFn st.T_8 st.T_2 st.h_8 st.h_2 st.p_8
          st.p_2 (st.Q_23, st.T_3, st.T_9)).1| ≤ 1 / 1000000 ∧
       |(hrsg_equations cfg prov logFn st.T_8 st.T_2 st.h_8 st.h_2 st.p_8
          st.p_2 (st.Q_23, st.T_3, st.T_9)).2.1| ≤ 1 / 1000000 ∧
       |(hrsg_equations cfg prov logFn st.T_8 st.T_2 st.h_8 st.h_2 st.p_8
          st.p_2 (st.Q_23, st.T_3, st.T_9)).2.2| ≤ 1 / 1000000) ∧
      st.h_3 = st.h_2 + st.Q_23 / cfg.m_dot_steam ∧
      st.h_9 = st.h_8 - st.Q_23 / cfg.m_dot_gas) := by
  subst hst
  refine ⟨rfl, ?_, ?_⟩
  · intro T_8 T_2 h_8 h_2 p_8 p_2 Q T3 T9
    refine Prod.ext rfl (Prod.ext ?_ ?_) <;>
      · simp only [hrsg_equations]
        ring
  · intro h
    have h1 : (hrsg_equations cfg prov logFn
        (calc_states cfg prov logFn solver).T_8
        (calc_states cfg prov logFn solver).T_2
        (calc_states cfg prov logFn solver).h_8
        (calc_states cfg prov logFn solver).h_2
        (calc_states cfg prov logFn solver).p_8
        (calc_states cfg prov logFn solver).p_2
        ((calc_states cfg prov logFn solver).Q_23,
         (calc_states cfg prov logFn solver).T_3,
         (calc_states cfg prov logFn solver).T_9)).1 = 0 := by rw [h]
    have h2 : (hrsg_equations cfg prov logFn
        (calc_states cfg prov logFn solver).T_8
        (calc_states cfg prov logFn solver).T_2
        (calc_states cfg prov logFn solver).h_8
        (calc_states cfg prov logFn solver).h_2
        (calc_states cfg prov logFn solver).p_8
        (calc_states cfg prov logFn solver).p_2
        ((calc_states cfg prov logFn solver).Q_23,
         (calc_states cfg prov logFn solver).T_3,
         (calc_states cfg prov logFn solver).T_9)).2.1 = 0 := by rw [h]
    have h3 : (hrsg_equations cfg prov logFn
        (calc_states cfg prov logFn solver).T_8
        (calc_states cfg prov logFn solver).T_2
        (calc_states cfg prov logFn solver).h_8
        (calc_states cfg prov logFn solver).h_2
        (calc_states cfg prov logFn solver).p_8
        (calc_states cfg prov logFn solver).p_2
        ((calc_states cfg prov logFn solver).Q_23,
         (calc_states cfg prov logFn solver).T_3,
         (calc_states cfg prov logFn solver).T_9)).2.2 = 0 := by rw [h]
    refine ⟨⟨?_, ?_, ?_⟩, rfl, rfl⟩
    · rw [h1]; norm_num
    · rw [h2]; norm_num
    · rw [h3]; norm_num

/-- Claim C1, witness: for `cfgW`/`provW`/`logW` the finder outcome
`(4920000, 510, 400)` is an exact root, and the stored triple's residuals
are all within the 1e-6 tolerance. -/
theorem hrsg_residuals_amended_check :
    |(hrsg_equations cfgW provW logW
        (calc_states cfgW provW logW solverRoot).T_8
        (calc_states cfgW provW logW solverRoot).T_2
        (calc_states cfgW provW logW solverRoot).h_8
        (calc_states cfgW provW logW solverRoot).h_2
        (calc_states cfgW provW logW solverRoot).p_8
        (calc_states cfgW provW logW solverRoot).p_2
        ((calc_states cfgW provW logW solverRoot).Q_23,
         (calc_states cfgW provW logW solverRoot).T_3,
         (calc_states cfgW provW logW solverRoot).T_9)).1| ≤ 1 / 1000000 ∧
    |(hrsg_equations cfgW provW logW
        (calc_states cfgW provW logW solverRoot).T_8
        (calc_states cfgW provW logW solverRoot).T_2
        (calc_states cfgW provW logW solverRoot).h_8
        (calc_states cfgW provW logW solverRoot).h_2
        (calc_states cfgW provW logW solverRoot).p_8
        (calc_states cfgW provW logW solverRoot).p_2
        ((calc_states cfgW provW logW solverRoot).Q_23,
         (calc_states cfgW provW logW solverRoot).T_3,
         (calc_states cfgW provW logW solverRoot).T_9)).2.1| ≤ 1 / 1000000 ∧
    |(hrsg_equations cfgW provW logW
        (calc_states cfgW provW logW solverRoot).T_8
        (calc_states cfgW provW logW solverRoot).T_2
        (calc_states cfgW provW logW solverRoot).h_8
        (calc_states cfgW provW logW solverRoot).h_2
        (calc_states cfgW provW logW solverRoot).p_8
        (calc_states cfgW provW logW solverRoot).p_2
        ((calc_states cfgW provW logW solverRoot).Q_23,
         (calc_states cfgW provW logW solverRoot).T_3,
         (calc_states cfgW provW logW solverRoot).T_9)).2.2| ≤ 1 / 1000000 :=
  ((hrsg_residuals_amended cfgW provW logW solverRoot _ rfl).2.2
    (by norm_num [calc_states, hrsg_equations, cfgW, provW, logW, solverRoot,
      specific_exergy_at_point])).1

/-- Claim C1, counterexample to the claim as stated: when the root finder
returns a non-root — modelling scipy's `fsolve` returning its last iterate
after failing to converge — `calc_states` stores the triple unchanged and
continues; here the stored triple `(0, 500, 800)` leaves a gas-side
energy-balance residual of -10000, far outside the 1e-6 tolerance, with no
error raised. -/
theorem hrsg_solver_acceptance_cex :
    (calc_states cfgW provW logW solverBad).Q_23 = 0 ∧
    (calc_states cfgW provW logW solverBad).T_3 = 500 ∧
    (calc_states cfgW provW logW solverBad).T_9 = 800 ∧
    (calc_states cfgW provW logW solverBad).h_9 = 810000 ∧
    provW.h_pt cfgW.gas_fluid (calc_states cfgW provW logW solverBad).p_8
        (calc_states cfgW provW logW solverBad).T_9 -
      ((calc_states cfgW provW logW solverBad).h_8 -
        (calc_states cfgW provW logW solverBad).Q_23 / cfgW.m_dot_gas) =
      -10000 ∧
    ¬(|(-10000 : ℚ)| ≤ 1 / 1000000) := by
  refine ⟨?_, ?_, ?_, ?_, ?_, ?_⟩ <;>
    norm_num [calc_states, cfgW, provW, logW, solverBad,
      specific_exergy_at_point, hrsg_equations, check_limits]

/-- Claim C5 (amended): every exergy-destruction rate computed by
`calc_energy_exergy_balances` is mass flow times the hardcoded literal
298 K — not the 298.15 K dead-state temperature used for specific exergy —
times the entropy change across the component (for the HRSG, the combined
entropy generation of both streams), and each is non-negative whenever that
entropy change is non-negative; no negative-value flagging exists in the
code. -/
theorem exergy_destruction_formula (cfg : Config) (prov : PropFns)
    (st : State) :
    (calc_energy_exergy_balances cfg prov st).W_56_loss =
      cfg.m_dot_gas * 298 * (st.s_6 - st.s_5) ∧
    (calc_energy_exergy_balances cfg prov st).W_78_loss =
      cfg.m_dot_gas * 298 * (st.s_8 - st.s_7) ∧
    (calc_energy_exergy_balances cfg prov st).hrsg_loss =
      298 * (cfg.m_dot_steam * (st.s_3 - st.s_2) +
        cfg.m_dot_gas * (st.s_9 - st.s_8)) ∧
    (calc_energy_exergy_balances cfg prov st).W_12_loss =
      cfg.m_dot_steam * 298 * (st.s_2 - st.s_1) ∧
    (calc_energy_exergy_balances cfg prov st).W_34_loss =
      cfg.m_dot_steam * 298 * (st.s_4 - st.s_3) ∧
    (0 ≤ cfg.m_dot_gas → 0 ≤ st.s_6 - st.s_5 →
      0 ≤ (calc_energy_exergy_balances cfg prov st).W_56_loss) ∧
    (0 ≤ cfg.m_dot_gas → 0 ≤ st.s_8 - st.s_7 →
      0 ≤ (calc_energy_exergy_balances cfg prov st).W_78_loss) ∧
    (0 ≤ cfg.m_dot_steam * (st.s_3 - st.s_2) +
        cfg.m_dot_gas * (st.s_9 - st.s_8) →
      0 ≤ (calc_energy_exergy_balances cfg prov st).hrsg_loss) ∧
    (0 ≤ cfg.m_dot_steam → 0 ≤ st.s_2 - st.s_1 →
      0 ≤ (calc_energy_exergy_balances cfg prov st).W_12_loss) ∧
    (0 ≤ cfg.m_dot_steam → 0 ≤ st.s_4 - st.s_3 →
      0 ≤ (calc_energy_exergy_balances cfg prov st).W_34_loss) := by
  refine ⟨rfl, rfl, rfl, rfl, rfl, ?_, ?_, ?_, ?_, ?_⟩
  · intro hm hs
    exact mul_nonneg (mul_nonneg hm (by norm_num)) hs
  · intro hm hs
    exact mul_nonneg (mul_nonneg hm (by norm_num)) hs
  · intro hs
    exact mul_nonneg (by norm_num) hs
  · intro hm hs
    exact mul_nonneg (mul_nonneg hm (by norm_num)) hs
  · intro hm hs
    exact mul_nonneg (mul_nonneg hm (by norm_num)) hs

/-- Claim C5, witness: for the solved state at `cfg3`/`prov3` the entropy
change across every component is non-negative, so all five destruction
rates are non-negative. -/
theorem exergy_destruction_formula_check :
    0 ≤ (calc_energy_exergy_balances cfg3 prov3
      (calc_states cfg3 prov3 logW solver3)).W_56_loss ∧
    0 ≤ (calc_energy_exergy_balances cfg3 prov3
      (calc_states cfg3 prov3 logW solver3)).W_78_loss ∧
    0 ≤ (calc_energy_exergy_balances cfg3 prov3
      (calc_states cfg3 prov3 logW solver3)).hrsg_loss ∧
    0 ≤ (calc_energy_exergy_balances cfg3 prov3
      (calc_states cfg3 prov3 logW solver3)).W_12_loss ∧
    0 ≤ (calc_energy_exergy_balances cfg3 prov3
      (calc_states cfg3 prov3 logW solver3)).W_34_loss := by
  have h := exergy_destruction_formula cfg3 prov3
    (calc_states cfg3 prov3 logW solver3)
  refine ⟨h.2.2.2.2.2.1 (by norm_num [cfg3]) ?_,
          h.2.2.2.2.2.2.1 (by norm_num [cfg3]) ?_,
          h.2.2.2.2.2.2.2.1 ?_,
          h.2.2.2.2.2.2.2.2.1 (by norm_num [cfg3]) ?_,
          h.2.2.2.2.2.2.2.2.2 (by norm_num [cfg3]) ?_⟩ <;>
    norm_num [calc_states, cfg3, prov3, logW, solver3,
      specific_exergy_at_point, hrsg_equations]

/-- Claim C5, counterexample to the claim as stated: the gas-compressor
destruction rate is computed with the hardcoded factor 298, so at the
solved `cfg3`/`prov3` state (mass flow 12, entropy rise 60) it is 214560 W,
while mass flow times the 298.15 K dead-state temperature of the exergy
functions times the same entropy rise is 214668 W. -/
theorem exergy_destruction_cex :
    (calc_energy_exergy_balances cfg3 prov3
      (calc_states cfg3 prov3 logW solver3)).W_56_loss = 214560 ∧
    cfg3.m_dot_gas * 298.15 *
        ((calc_states cfg3 prov3 logW solver3).s_6 -
          (calc_states cfg3 prov3 logW solver3).s_5) = 214668 ∧
    (214560 : ℚ) ≠ 214668 := by
  refine ⟨?_, ?_, by norm_num⟩ <;>
    norm_num [calc_energy_exergy_balances, calc_states, cfg3, prov3, logW,
      solver3, specific_exergy_at_point, specific_exergy_at_state,
      hrsg_equations, check_limits]

/-- Helper: the code's `if a < b then a else b` is the minimum. -/
theorem if_lt_eq_min (a b : ℚ) : (if a < b then a else b) = min a b := by
  rcases le_or_lt b a with h | h
  · rw [if_neg (not_lt.mpr h), min_eq_right h]
  · rw [if_pos h, min_eq_left h.le]

/-- Claim C6 (amended): `calc_hrsg_pinch_point` reports `T_pinch` as the
smaller of exactly two candidates — the hot-end approach `dT_hot_hrsg`
(which `calc_states` sets to `T_8 - T_3`, with `dT_cold_hrsg = T_9 - T_2`)
and the boiling-onset approach (gas-side temperature interpolated at the
saturated-liquid progress coordinate minus the boiling temperature) — hence
`T_pinch` is at most the hot-end approach; the cold-end approach is not
among the candidates and need not bound `T_pinch` from above. -/
theorem pinch_two_candidates (cfg : Config) (prov : PropFns) (st : State) :
    (calc_hrsg_pinch_point cfg prov st).1 =
      min st.dT_hot_hrsg
        (np_interp2 ((prov.h_pq cfg.steam_fluid st.p_2 0 - st.h_2) /
            (st.h_3 - st.h_2)) 0 1 st.T_9 st.T_8 -
          prov.t_pq cfg.steam_fluid st.p_2 0) ∧
    (calc_hrsg_pinch_point cfg prov st).1 ≤ st.dT_hot_hrsg ∧
    (∀ (cfg2 : Config) (prov2 : PropFns) (logFn : ℚ → ℚ)
        (solver : ((ℚ × ℚ × ℚ) → (ℚ × ℚ × ℚ)) → (ℚ × ℚ × ℚ) → (ℚ × ℚ × ℚ)),
      (calc_states cfg2 prov2 logFn solver).dT_hot_hrsg =
          (calc_states cfg2 prov2 logFn solver).T_8 -
            (calc_states cfg2 prov2 logFn solver).T_3 ∧
      (calc_states cfg2 prov2 logFn solver).dT_cold_hrsg =
          (calc_states cfg2 prov2 logFn solver).T_9 -
            (calc_states cfg2 prov2 logFn solver).T_2) := by
  refine ⟨?_, ?_, fun cfg2 prov2 logFn solver => ⟨rfl, rfl⟩⟩
  · simp only [calc_hrsg_pinch_point]
    exact if_lt_eq_min _ _
  · simp only [calc_hrsg_pinch_point]
    rw [if_lt_eq_min]
    exact min_le_left _ _

/-- Claim C6, counterexample to the claim as stated: at `cfgW`/`provW` with
the exact-root finder outcome `(4920000, 510, 400)` the solved state has
strictly positive approaches on both sides, yet the reported pinch
temperature difference is 155 K, which exceeds the cold-end approach
`T_9 - T_2 = 10` K. -/
theorem pinch_cold_end_cex :
    0 < (calc_states cfgW provW logW solverRoot).dT_hot_hrsg ∧
    0 < (calc_states cfgW provW logW solverRoot).dT_cold_hrsg ∧
    hrsg_equations cfgW provW logW
        (calc_states cfgW provW logW solverRoot).T_8
        (calc_states cfgW provW logW solverRoot).T_2
        (calc_states cfgW provW logW solverRoot).h_8
        (calc_states cfgW provW logW solverRoot).h_2
        (calc_states cfgW provW logW solverRoot).p_8
        (calc_states cfgW provW logW solverRoot).p_2
        ((calc_states cfgW provW logW solverRoot).Q_23,
         (calc_states cfgW provW logW solverRoot).T_3,
         (calc_states cfgW provW logW solverRoot).T_9) = (0, 0, 0) ∧
    (calc_hrsg_pinch_point cfgW provW
      (calc_states cfgW provW logW solverRoot)).1 = 155 ∧
    (calc_states cfgW provW logW solverRoot).T_9 -
      (calc_states cfgW provW logW solverRoot).T_2 = 10 ∧
    ¬((calc_hrsg_pinch_point cfgW provW
        (calc_states cfgW provW logW solverRoot)).1 ≤
      (calc_states cfgW provW logW solverRoot).T_9 -
        (calc_states cfgW provW logW solverRoot).T_2) := by
  refine ⟨?_, ?_, ?_, ?_, ?_, ?_⟩ <;>
    norm_num [calc_states, calc_hrsg_pinch_point, np_interp2, cfgW, provW,
      logW, solverRoot, specific_exergy_at_point, hrsg_equations,
      check_limits, Prod.ext_iff]

/-- Claim C7: for the gas cycle, the steam cycle, and the overall plant,
whenever the maximum-possible thermal efficiency (exergy input over heat
input) is at most 1 and the net power, heat input and exergy input are
positive, the exergy efficiency is at least the thermal efficiency, as
computed by `calc_energy_exergy_balances`. -/
theorem efficiency_ordering (cfg : Config) (prov : PropFns) (st : State) :
    ((calc_energy_exergy_balances cfg prov st).eta_gas_th_max ≤ 1 →
      0 < (calc_energy_exergy_balances cfg prov st).W_gas →
      0 < cfg.Q_67 →
      0 < (calc_energy_exergy_balances cfg prov st).Ex_67 →
      (calc_energy_exergy_balances cfg prov st).eta_gas_th ≤
        (calc_energy_exergy_balances cfg prov st).eta_gas_ex) ∧
    ((calc_energy_exergy_balances cfg prov st).eta_steam_th_max ≤ 1 →
      0 < (calc_energy_exergy_balances cfg prov st).W_steam →
      0 < st.Q_23 →
      0 < (calc_energy_exergy_balances cfg prov st).Ex_23 →
      (calc_energy_exergy_balances cfg prov st).eta_steam_th ≤
        (calc_energy_exergy_balances cfg prov st).eta_steam_ex) ∧
    ((calc_energy_exergy_balances cfg prov st).eta_th_max ≤ 1 →
      0 < (calc_energy_exergy_balances cfg prov st).W_total →
      0 < cfg.Q_67 →
      0 < (calc_energy_exergy_balances cfg prov st).Ex_67 →
      (calc_energy_exergy_balances cfg prov st).eta_th ≤
        (calc_energy_exergy_balances cfg prov st).eta_ex) := by
  refine ⟨?_, ?_, ?_⟩
  · intro hmax hW hQ hEx
    have hle : (calc_energy_exergy_balances cfg prov st).Ex_67 ≤ cfg.Q_67 :=
      (div_le_one hQ).mp hmax
    show (calc_energy_exergy_balances cfg prov st).W_gas / cfg.Q_67 ≤
      (calc_energy_exergy_balances cfg prov st).W_gas /
        (calc_energy_exergy_balances cfg prov st).Ex_67
    rw [div_le_div_iff₀ hQ hEx]
    exact mul_le_mul_of_nonneg_left hle hW.le
  · intro hmax hW hQ hEx
    have hle : (calc_energy_exergy_balances cfg prov st).Ex_23 ≤ st.Q_23 :=
      (div_le_one hQ).mp hmax
    show (calc_energy_exergy_balances cfg prov st).W_steam / st.Q_23 ≤
      (calc_energy_exergy_balances cfg prov st).W_steam /
        (calc_energy_exergy_balances cfg prov st).Ex_23
    rw [div_le_div_iff₀ hQ hEx]
    exact mul_le_mul_of_nonneg_left hle hW.le
  · intro hmax hW hQ hEx
    have hle : (calc_energy_exergy_balances cfg prov st).Ex_67 ≤ cfg.Q_67 :=
      (div_le_one hQ).mp hmax
    show (calc_energy_exergy_balances cfg prov st).W_total / cfg.Q_67 ≤
      (calc_energy_exergy_balances cfg prov st).W_total /
        (calc_energy_exergy_balances cfg prov st).Ex_67
    rw [div_le_div_iff₀ hQ hEx]
    exact mul_le_mul_of_nonneg_left hle hW.le

/-- Claim C7, witness: at the solved `cfg7`/`prov7` state all three
premises hold (positive net powers, heat and exergy inputs, maximum
efficiencies at most 1), and all three efficiency orderings follow. -/
theorem efficiency_ordering_check :
    ((calc_energy_exergy_balances cfg7 prov7
        (calc_states cfg7 prov7 logW solver7)).eta_gas_th ≤
      (calc_energy_exergy_balances cfg7 prov7
        (calc_states cfg7 prov7 logW solver7)).eta_gas_ex) ∧
    ((calc_energy_exergy_balances cfg7 prov7
        (calc_states cfg7 prov7 logW solver7)).eta_steam_th ≤
      (calc_energy_exergy_balances cfg7 prov7
        (calc_states cfg7 prov7 logW solver7)).eta_steam_ex) ∧
    ((calc_energy_exergy_balances cfg7 prov7
        (calc_states cfg7 prov7 logW solver7)).eta_th ≤
      (calc_energy_exergy_balances cfg7 prov7
        (calc_states cfg7 prov7 logW solver7)).eta_ex) := by
  have h := efficiency_ordering cfg7 prov7 (calc_states cfg7 prov7 logW solver7)
  refine ⟨h.1 ?_ ?_ ?_ ?_, h.2.1 ?_ ?_ ?_ ?_, h.2.2 ?_ ?_ ?_ ?_⟩ <;>
    norm_num [calc_energy_exergy_balances, calc_states, cfg7, prov7, logW,
      solver7, specific_exergy_at_point, specific_exergy_at_state,
      hrsg_equations]

/-- Claim C8: the safety-limit checker is a pure comparison pass over the
completed state: the violations are exactly `check_limits` of the computed
`T_7`, `T_3`, `x_4`, `p_3`, `p_4`; changing the five limit thresholds
changes nothing but the violation list (the checker runs after, and feeds
nothing back into, the solve, which always completes); and a state whose
only breach is `x_4` below the configured minimum yields exactly the
erosion-risk violation and no other. -/
theorem limit_checker_nonfatal :
    (∀ (cfg : Config) (prov : PropFns) (logFn : ℚ → ℚ)
        (solver : ((ℚ × ℚ × ℚ) → (ℚ × ℚ × ℚ)) → (ℚ × ℚ × ℚ) → (ℚ × ℚ × ℚ)),
      (calc_states cfg prov logFn solver).violations =
        check_limits cfg (calc_states cfg prov logFn solver).T_7
          (calc_states cfg prov logFn solver).T_3
          (calc_states cfg prov logFn solver).x_4
          (calc_states cfg prov logFn solver).p_3
          (calc_states cfg prov logFn solver).p_4) ∧
    (∀ (cfg : Config) (prov : PropFns) (logFn : ℚ → ℚ)
        (solver : ((ℚ × ℚ × ℚ) → (ℚ × ℚ × ℚ)) → (ℚ × ℚ × ℚ) → (ℚ × ℚ × ℚ))
        (a b c d e : ℚ),
      drop_violations (calc_states (set_limits cfg a b c d e) prov logFn
          solver) =
        drop_violations (calc_states cfg prov logFn solver)) ∧
    (∀ (cfg : Config) (prov : PropFns) (logFn : ℚ → ℚ)
        (solver : ((ℚ × ℚ × ℚ) → (ℚ × ℚ × ℚ)) → (ℚ × ℚ × ℚ) → (ℚ × ℚ × ℚ)),
      ¬(cfg.max_t7 < (calc_states cfg prov logFn solver).T_7) →
      ¬(cfg.max_t3 < (calc_states cfg prov logFn solver).T_3) →
      (calc_states cfg prov logFn solver).x_4 < cfg.min_x4 →
      ¬(cfg.max_p_hrsg_steam < (calc_states cfg prov logFn solver).p_3) →
      ¬((calc_states cfg prov logFn solver).p_4 < cfg.min_p_cond) →
      (calc_states cfg prov logFn solver).violations =
        [Violation.erosionRisk]) := by
  refine ⟨fun cfg prov logFn solver => rfl,
          fun cfg prov logFn solver a b c d e => rfl,
          fun cfg prov logFn solver h1 h2 h3 h4 h5 => ?_⟩
  show check_limits cfg (calc_states cfg prov logFn solver).T_7
      (calc_states cfg prov logFn solver).T_3
      (calc_states cfg prov logFn solver).x_4
      (calc_states cfg prov logFn solver).p_3
      (calc_states cfg prov logFn solver).p_4 = [Violation.erosionRisk]
  simp only [check_limits, if_neg h1, if_neg h2, if_pos h3, if_neg h4,
    if_neg h5]
  rfl

/-- Claim C8, witness: in the `cfgW`/`provW` run with the exact-root finder
outcome, the only limit breached is the condenser-inlet quality
(`x_4 = 1/2 < 0.9`), and the collected violations are exactly the
erosion-risk warning. -/
theorem limit_checker_nonfatal_check :
    (calc_states cfgW provW logW solverRoot).violations =
      [Violation.erosionRisk] :=
  limit_checker_nonfatal.2.2 cfgW provW logW solverRoot
    (by norm_num [calc_states, cfgW, provW, logW, solverRoot,
      specific_exergy_at_point, hrsg_equations])
    (by norm_num [calc_states, cfgW, provW, logW, solverRoot,
      specific_exergy_at_point, hrsg_equations])
    (by norm_num [calc_states, cfgW, provW, logW, solverRoot,
      specific_exergy_at_point, hrsg_equations])
    (by norm_num [calc_states, cfgW, provW, logW, solverRoot,
      specific_exergy_at_point, hrsg_equations])
    (by norm_num [calc_states, cfgW, provW, logW, solverRoot,
      specific_exergy_at_point, hrsg_equations])
